import Mathlib

/-!
Shallow embedding of the stl-frames parametric frame generator
(`src/unnamed/part_000`, the current revision of the single application
module; `src/js/app.js` is an earlier revision of the same file).

JavaScript numbers are modelled as `Option ℚ`: `some q` is a finite double
(exact rational arithmetic stands in for float64 — all decimal constants of
the source, 0.4, 0.45, 0.35, 1.1, 0.55, 0.8, 0.2, are transcribed as exact
rationals), `none` is any non-finite value (NaN, ±Infinity), which is all
that `Number.isFinite` distinguishes.  Strings are Lean `String`s.
The three.js / JSZip collaborators are external libraries, not part of the
repository; the repository's own per-vertex deformation loops are embedded
exactly, acting pointwise on vertex lists, while the library's extrusion is
represented by the cap vertices of the extruded profile.
-/

namespace StlFrames

/-- A JavaScript numeric value as consumed by `normalizeParams`:
`none` models every non-finite double (NaN, +Infinity, -Infinity). -/
abbrev JsNum := Option ℚ

/-- The raw parameter record read from the form (`readParams`, lines 36-47). -/
structure Params where
  width : JsNum
  height : JsNum
  faceWidth : JsNum
  profileDepth : JsNum
  lipWidth : JsNum
  lipDepth : JsNum
  clearance : JsNum
  style : String
deriving DecidableEq, Repr

/-- The module-level `defaults` object (lines 22-31); clearance 0.4 = 2/5. -/
def defaultParams : Params :=
  { width := some 600, height := some 400, faceWidth := some 20,
    profileDepth := some 14, lipWidth := some 4, lipDepth := some 4,
    clearance := some (2/5), style := "minimal" }

/-- One step of the numeric-default loop (lines 61-65):
`if (!Number.isFinite(sane[key]) || sane[key] <= 0) sane[key] = fallback;`. -/
def normNum (x : JsNum) (fallback : ℚ) : ℚ :=
  match x with
  | none => fallback
  | some q => if q ≤ 0 then fallback else q

/-- `sane.width` after the defaults loop. -/
def normWidth (p : Params) : ℚ := normNum p.width 600

/-- `sane.height` after the defaults loop. -/
def normHeight (p : Params) : ℚ := normNum p.height 400

/-- `sane.faceWidth` after the defaults loop. -/
def normFaceWidth (p : Params) : ℚ := normNum p.faceWidth 20

/-- `sane.profileDepth` after the defaults loop. -/
def normProfileDepth (p : Params) : ℚ := normNum p.profileDepth 14

/-- `sane.lipWidth` after the defaults loop, before the cross-field clamp. -/
def normLipWidth0 (p : Params) : ℚ := normNum p.lipWidth 4

/-- `sane.lipDepth` after the defaults loop, before the cross-field clamp. -/
def normLipDepth0 (p : Params) : ℚ := normNum p.lipDepth 4

/-- `sane.clearance` after the defaults loop (default 0.4 = 2/5). -/
def normClearance (p : Params) : ℚ := normNum p.clearance (2/5)

/-- Lines 67-69: `if (sane.lipWidth >= sane.faceWidth) sane.lipWidth =
Math.max(2, sane.faceWidth * 0.45);` (0.45 = 9/20). -/
def normLipWidth (p : Params) : ℚ :=
  if normFaceWidth p ≤ normLipWidth0 p
  then max 2 (normFaceWidth p * (9/20))
  else normLipWidth0 p

/-- Lines 70-72: `if (sane.lipDepth >= sane.profileDepth) sane.lipDepth =
Math.max(2, sane.profileDepth * 0.35);` (0.35 = 7/20). -/
def normLipDepth (p : Params) : ℚ :=
  if normProfileDepth p ≤ normLipDepth0 p
  then max 2 (normProfileDepth p * (7/20))
  else normLipDepth0 p

/-- `normalizeParams` (lines 49-75): spreads the input, runs the numeric
defaults loop over the seven numeric fields, then the two cross-field lip
clamps.  The `style` field is copied by the spread and never touched. -/
def normalizeParams (p : Params) : Params :=
  { width := some (normWidth p), height := some (normHeight p),
    faceWidth := some (normFaceWidth p), profileDepth := some (normProfileDepth p),
    lipWidth := some (normLipWidth p), lipDepth := some (normLipDepth p),
    clearance := some (normClearance p), style := p.style }

/-- The `width` field of the normalized parameters, as a rational. -/
def nWidth (p : Params) : ℚ := ((normalizeParams p).width).getD 0

/-- The `height` field of the normalized parameters. -/
def nHeight (p : Params) : ℚ := ((normalizeParams p).height).getD 0

/-- The `faceWidth` field of the normalized parameters. -/
def nFaceWidth (p : Params) : ℚ := ((normalizeParams p).faceWidth).getD 0

/-- The `profileDepth` field of the normalized parameters. -/
def nProfileDepth (p : Params) : ℚ := ((normalizeParams p).profileDepth).getD 0

/-- The `lipWidth` field of the normalized parameters. -/
def nLipWidth (p : Params) : ℚ := ((normalizeParams p).lipWidth).getD 0

/-- The `lipDepth` field of the normalized parameters. -/
def nLipDepth (p : Params) : ℚ := ((normalizeParams p).lipDepth).getD 0

/-- The `clearance` field of the normalized parameters. -/
def nClearance (p : Params) : ℚ := ((normalizeParams p).clearance).getD 0

/-- Normalized parameters with every numeric field extracted to a rational
(what the destructuring of `safeParams` yields downstream). -/
structure SParams where
  width : ℚ
  height : ℚ
  faceWidth : ℚ
  profileDepth : ℚ
  lipWidth : ℚ
  lipDepth : ℚ
  clearance : ℚ
  style : String
deriving DecidableEq, Repr

/-- Collects the normalized fields of `p` into an `SParams`. -/
def safeOf (p : Params) : SParams :=
  { width := nWidth p, height := nHeight p, faceWidth := nFaceWidth p,
    profileDepth := nProfileDepth p, lipWidth := nLipWidth p,
    lipDepth := nLipDepth p, clearance := nClearance p,
    style := (normalizeParams p).style }

/-! ## 2D profiles (`buildProfileShape`, lines 83-93, and the inline lip
shape of `createLipOverlay`, lines 170-175) -/

/-- `buildProfileShape` (lines 83-93): the rail cross-section path, one
`moveTo` followed by six `lineTo`s, the last returning to the start. -/
def buildProfileShape (faceWidth profileDepth lipWidth lipDepth : ℚ) :
    List (ℚ × ℚ) :=
  [(0, 0), (faceWidth, 0), (faceWidth, profileDepth),
   (faceWidth - lipWidth, profileDepth), (faceWidth - lipWidth, lipDepth),
   (0, lipDepth), (0, 0)]

/-- The inline `lipShape` of `createLipOverlay` (lines 170-175): one
`moveTo` followed by four `lineTo`s, the last returning to the start. -/
def lipOverlayShape (faceWidth profileDepth lipWidth lipDepth : ℚ) :
    List (ℚ × ℚ) :=
  [(-faceWidth/2, -profileDepth/2),
   (-faceWidth/2 + lipWidth, -profileDepth/2),
   (-faceWidth/2 + lipWidth, -profileDepth/2 + lipDepth),
   (-faceWidth/2, -profileDepth/2 + lipDepth),
   (-faceWidth/2, -profileDepth/2)]

/-! ## Per-vertex deformations -/

/-- Stand-in for the vertex buffer of `new THREE.ExtrudeGeometry(shape,
{depth})`: the external three.js library extrudes the profile from z = 0 to
z = depth; we take the profile ring at both caps as representative
vertices.  Every deformation of the repository acts pointwise on whatever
buffer the library produces, so the claims below are insensitive to the
library's exact triangulation. -/
def extrudeVerts (profile : List (ℚ × ℚ)) (depth : ℚ) : List (ℚ × ℚ × ℚ) :=
  profile.map (fun q => (q.1, q.2, 0)) ++ profile.map (fun q => (q.1, q.2, depth))

/-- `Math.sign` on a finite double. -/
def jsign (z : ℚ) : ℚ := if 0 < z then 1 else if z < 0 then -1 else 0

/-- `taperSpan = Math.max(faceWidth, profileDepth) * 1.1` (line 115). -/
def taperSpanOf (faceWidth profileDepth : ℚ) : ℚ :=
  max faceWidth profileDepth * (11/10)

/-- The skew value of the in-range branch of `addMiterEnds` (lines 121-123):
`skew = (faceWidth + profileDepth * 0.8) * (1 - distanceFromEnd/taperSpan)
* Math.sign(z)`. -/
def skewAt (faceWidth profileDepth length z : ℚ) : ℚ :=
  (faceWidth + profileDepth * (4/5)) *
    (1 - (length/2 - |z|) / taperSpanOf faceWidth profileDepth) * jsign z

/-- The loop body of `addMiterEnds` (lines 117-126) applied to one vertex:
`distanceFromEnd = half - Math.abs(z)`; skip when `distanceFromEnd >=
taperSpan || distanceFromEnd < 0`; otherwise `x += skew; y += skew * 0.55`. -/
def miterVertex (faceWidth profileDepth length : ℚ) (v : ℚ × ℚ × ℚ) :
    ℚ × ℚ × ℚ :=
  let z := v.2.2
  let distanceFromEnd := length/2 - |z|
  if taperSpanOf faceWidth profileDepth ≤ distanceFromEnd ∨ distanceFromEnd < 0
  then v
  else
    let skew := (faceWidth + profileDepth * (4/5)) *
      (1 - distanceFromEnd / taperSpanOf faceWidth profileDepth) * jsign z
    (v.1 + skew, v.2.1 + skew * (11/20), z)

/-- `addMiterEnds` (lines 112-130): the per-vertex taper over the whole
position buffer. -/
def addMiterEnds (faceWidth profileDepth length : ℚ)
    (verts : List (ℚ × ℚ × ℚ)) : List (ℚ × ℚ × ℚ) :=
  verts.map (miterVertex faceWidth profileDepth length)

/-- The loop body of `carveWoodgrain` (lines 98-106) applied to one vertex.
`s a b` models `Math.sin(a * Math.PI + b)` and `c a b` models
`Math.cos(a * Math.PI + b)` — the source computes
`Math.sin((z/length) * Math.PI * 8 + x * 0.08)` and
`Math.cos((z/length) * Math.PI * 3)`, so the π-coefficient and the additive
constant are both recorded exactly; any interpretation of `s` and `c`
instantiates the two transcendental functions.  0.08 = 2/25, 0.6 = 3/5,
0.15 = 3/20, 0.35 = 7/20. -/
def carveWoodgrainVertex (s c : ℚ → ℚ → ℚ) (length intensity : ℚ)
    (v : ℚ × ℚ × ℚ) : ℚ × ℚ × ℚ :=
  let x := v.1
  let z := v.2.2
  let grainWave := s ((z / length) * 8) (x * (2/25))
  let ripple := c ((z / length) * 3) 0 * (3/5)
  let bump := (grainWave + ripple) * intensity
  (x + bump * (3/20), v.2.1 + bump * (7/20), z)

/-- `carveWoodgrain` (lines 95-110) over the whole position buffer, at the
call-site intensity 0.55 = 11/20 (line 150 passes the default). -/
def carveWoodgrain (s c : ℚ → ℚ → ℚ) (length : ℚ)
    (verts : List (ℚ × ℚ × ℚ)) : List (ℚ × ℚ × ℚ) :=
  verts.map (carveWoodgrainVertex s c length (11/20))

/-! ## Piece construction (`createPiece`, lines 132-166, and
`createLipOverlay`, lines 168-188) -/

/-- `geometry.rotateY(Math.PI / 2)` on one vertex (three.js rotation
matrix about Y at a quarter turn): (x, y, z) ↦ (z, y, -x). -/
def rotYQuarter (v : ℚ × ℚ × ℚ) : ℚ × ℚ × ℚ := (v.2.2, v.2.1, -v.1)

/-- `geometry.rotateX(-Math.PI / 2)` on one vertex: (x, y, z) ↦ (x, z, -y). -/
def rotXNegQuarter (v : ℚ × ℚ × ℚ) : ℚ × ℚ × ℚ := (v.1, v.2.2, -v.2.1)

/-- The orientation dispatch of `createPiece`/`createLipOverlay`
(lines 153-157 and 179-183). -/
def orientVerts (dir : String) (verts : List (ℚ × ℚ × ℚ)) :
    List (ℚ × ℚ × ℚ) :=
  if dir = "horizontal" then verts.map rotYQuarter
  else if dir = "vertical" then verts.map rotXNegQuarter
  else verts

/-- The extruded rail after `geometry.translate(-faceWidth / 2,
-profileDepth / 2, -length / 2)` (lines 144-145). -/
def pieceBaseVerts (faceWidth profileDepth lipWidth lipDepth length : ℚ) :
    List (ℚ × ℚ × ℚ) :=
  (extrudeVerts (buildProfileShape faceWidth profileDepth lipWidth lipDepth)
      length).map
    (fun v => (v.1 - faceWidth/2, v.2.1 - profileDepth/2, v.2.2 - length/2))

/-- The rail vertex buffer after `addMiterEnds` (line 147, applied for
every style) and the style-conditional `carveWoodgrain` (lines 149-151). -/
def pieceDeformedVerts (s c : ℚ → ℚ → ℚ)
    (faceWidth profileDepth lipWidth lipDepth : ℚ) (style : String)
    (length : ℚ) : List (ℚ × ℚ × ℚ) :=
  let tapered := addMiterEnds faceWidth profileDepth length
    (pieceBaseVerts faceWidth profileDepth lipWidth lipDepth length)
  if style = "wood" then carveWoodgrain s c length tapered else tapered

/-- `bevel = style === 'bold'` (line 135), the only geometric effect of the
style on the extrusion settings. -/
def bevelOf (style : String) : Bool := style = "bold"

/-- Whether `carveWoodgrain` runs (line 149): `style === 'wood'`. -/
def woodOf (style : String) : Bool := style = "wood"

/-- The material colour ternary of `createPiece` (line 160). -/
def pieceColor (style : String) : ℕ :=
  if style = "wood" then 0xae8a63
  else if style = "bold" then 0x7cc7ff else 0x9ad4ff

/-- The material roughness ternary of `createPiece` (line 161). -/
def pieceRoughness (style : String) : ℚ :=
  if style = "wood" then 9/10 else 9/20

/-- The full vertex buffer of `createPiece` (lines 132-166): profile,
extrude, recenter, miter taper, optional woodgrain, then orientation. -/
def createPieceVerts (s c : ℚ → ℚ → ℚ)
    (faceWidth profileDepth lipWidth lipDepth : ℚ) (style dir : String)
    (length : ℚ) : List (ℚ × ℚ × ℚ) :=
  orientVerts dir
    (pieceDeformedVerts s c faceWidth profileDepth lipWidth lipDepth style length)

/-- The vertex buffer of `createLipOverlay` (lines 168-188): extrude the lip
shape, rotate by orientation, then `translate(0, 0, -length / 2)`
(line 184 — unlike `createPiece`, the translate follows the rotation). -/
def createLipOverlayVerts (faceWidth profileDepth lipWidth lipDepth : ℚ)
    (dir : String) (length : ℚ) : List (ℚ × ℚ × ℚ) :=
  (orientVerts dir
    (extrudeVerts (lipOverlayShape faceWidth profileDepth lipWidth lipDepth)
      length)).map
    (fun v => (v.1, v.2.1, v.2.2 - length/2))

/-! ## NaN-propagating JS arithmetic (`none : JsNum` is NaN) -/

/-- NaN-propagating JS addition on numbers. -/
def jsAdd (a b : JsNum) : JsNum :=
  match a, b with
  | some x, some y => some (x + y)
  | _, _ => none

/-- NaN-propagating JS multiplication on numbers. -/
def jsMul (a b : JsNum) : JsNum :=
  match a, b with
  | some x, some y => some (x * y)
  | _, _ => none

/-- NaN-propagating JS division; used here only with nonzero finite
divisors, where float and rational semantics agree. -/
def jsDiv (a b : JsNum) : JsNum :=
  match a, b with
  | some x, some y => some (x / y)
  | _, _ => none

/-- NaN-propagating JS negation. -/
def jsNeg (a : JsNum) : JsNum :=
  match a with
  | some x => some (-x)
  | none => none

/-! ## Corner insert (`createCornerInsert`, lines 190-214) -/

/-- The value of `geometry.parameters.depth` read at line 210: a three.js
`ExtrudeGeometry` sets `this.parameters = { shapes, options }`, so it has
no top-level `depth` property (the extrusion depth lives under
`parameters.options.depth`; a top-level `depth` exists only on primitives
such as BoxGeometry).  The property read yields `undefined`, whose
ToNumber — forced by the arithmetic it feeds — is NaN. -/
def extrudeGeometryParametersDepth : JsNum := none

/-- The data of the corner-insert mesh: the L-shaped profile path, the
extrusion depth, and the recentering translation of line 210 (whose z
component is a JS number because the source computes it from
`geometry.parameters.depth`). -/
structure InsertModel where
  shapePts : List (ℚ × ℚ)
  depth : ℚ
  centerShift : ℚ × ℚ × JsNum
deriving DecidableEq, Repr

/-- `createCornerInsert` (lines 190-214): `insertThickness = max(3,
profileDepth*0.35)`, `insertLeg = max(24, faceWidth*1.4)`, `taper = max(6,
faceWidth*0.4)`, L-shaped path, extrusion `depth = max(6, lipDepth*1.1 +
clearance)` (1.4 = 7/5, 0.4 = 2/5, 0.35 = 7/20, 1.1 = 11/10).  Line 210
then calls `geometry.translate(-insertLeg/2, -insertLeg/2,
-geometry.parameters.depth / 2)`; the first two components are finite, but
`geometry.parameters.depth` is `undefined` on an ExtrudeGeometry (see
`extrudeGeometryParametersDepth`), so the z component of the shift is
`-undefined/2 = NaN`, not `-depth/2`. -/
def createCornerInsert (faceWidth profileDepth lipDepth clearance : ℚ) :
    InsertModel :=
  let insertThickness := max 3 (profileDepth * (7/20))
  let insertLeg := max 24 (faceWidth * (7/5))
  let taper := max 6 (faceWidth * (2/5))
  let depth := max 6 (lipDepth * (11/10) + clearance)
  { shapePts := [(0, 0), (insertLeg, 0), (insertLeg, insertThickness),
                 (taper, insertThickness), (taper, insertLeg), (0, insertLeg),
                 (0, 0)],
    depth := depth,
    centerShift := (-insertLeg/2, -insertLeg/2,
                    jsNeg (jsDiv extrudeGeometryParametersDepth (some 2))) }

/-- `createCornerInsert(params)` destructures only faceWidth, profileDepth,
lipDepth and clearance from the parameter record (line 191). -/
def createCornerInsertFromParams (p : SParams) : InsertModel :=
  createCornerInsert p.faceWidth p.profileDepth p.lipDepth p.clearance

/-- The insert replication of `buildFrame` (lines 254-268): one canonical
insert is built, then `insert.clone()` four times; the placements receive
`rotation.z` of 0, π/2, -π/2 and π (recorded here as the coefficient of π:
0, 1/2, -1/2, 1). -/
def cornerInsertPlacements (p : SParams) : List (InsertModel × ℚ) :=
  let ins := createCornerInsertFromParams p
  [(ins, 0), (ins, 1/2), (ins, -1/2), (ins, 1)]

/-! ## Derived frame dimensions (`buildFrame` lines 224-231 and 273-274;
the same formulas are recomputed in `downloadZip`, lines 349-356) -/

/-- `innerWidth = width + clearance * 2` (line 225). -/
def innerWidth (width clearance : ℚ) : ℚ := width + clearance * 2

/-- `innerHeight = height + clearance * 2` (line 226). -/
def innerHeight (height clearance : ℚ) : ℚ := height + clearance * 2

/-- `horizontalLength = innerWidth + lipWidth * 2` (line 228). -/
def horizontalLength (width clearance lipWidth : ℚ) : ℚ :=
  innerWidth width clearance + lipWidth * 2

/-- `verticalLength = innerHeight + lipWidth * 2` (line 229). -/
def verticalLength (height clearance lipWidth : ℚ) : ℚ :=
  innerHeight height clearance + lipWidth * 2

/-- `outerWidth = innerWidth + faceWidth * 2` (line 273). -/
def outerWidth (width clearance faceWidth : ℚ) : ℚ :=
  innerWidth width clearance + faceWidth * 2

/-- `outerHeight = innerHeight + faceWidth * 2` (line 274). -/
def outerHeight (height clearance faceWidth : ℚ) : ℚ :=
  innerHeight height clearance + faceWidth * 2

/-! ## Frame assembly (`buildFrame`, lines 216-278) -/

/-- A composed scene node: a vertex buffer plus the position / z-rotation
placement `buildFrame` assigns to it (rotation recorded as the coefficient
of π). -/
structure PlacedPiece where
  tag : String
  verts : List (ℚ × ℚ × ℚ)
  posX : ℚ
  posY : ℚ
  posZ : ℚ
  rotZPi : ℚ
deriving DecidableEq, Repr

/-- The eight rail / lip-overlay nodes `buildFrame` constructs and positions
(lines 233-252): top and bottom are horizontal pieces of length
`horizontalLength` at y = ±(offsetY + (faceWidth - lipWidth)/2), left and
right are vertical pieces of length `verticalLength` at the symmetric x
offsets; each lip overlay copies the position of its rail. -/
def framePieces (s c : ℚ → ℚ → ℚ) (p : Params) : List PlacedPiece :=
  let sp := safeOf p
  let hl := horizontalLength sp.width sp.clearance sp.lipWidth
  let vl := verticalLength sp.height sp.clearance sp.lipWidth
  let offsetX := innerWidth sp.width sp.clearance / 2
  let offsetY := innerHeight sp.height sp.clearance / 2
  let railY := offsetY + (sp.faceWidth - sp.lipWidth) / 2
  let railX := offsetX + (sp.faceWidth - sp.lipWidth) / 2
  let horizVerts := createPieceVerts s c sp.faceWidth sp.profileDepth
    sp.lipWidth sp.lipDepth sp.style "horizontal" hl
  let vertVerts := createPieceVerts s c sp.faceWidth sp.profileDepth
    sp.lipWidth sp.lipDepth sp.style "vertical" vl
  let lipH := createLipOverlayVerts sp.faceWidth sp.profileDepth sp.lipWidth
    sp.lipDepth "horizontal" hl
  let lipV := createLipOverlayVerts sp.faceWidth sp.profileDepth sp.lipWidth
    sp.lipDepth "vertical" vl
  [ { tag := "top", verts := horizVerts, posX := 0, posY := railY, posZ := 0, rotZPi := 0 },
    { tag := "bottom", verts := horizVerts, posX := 0, posY := -railY, posZ := 0, rotZPi := 0 },
    { tag := "left", verts := vertVerts, posX := -railX, posY := 0, posZ := 0, rotZPi := 0 },
    { tag := "right", verts := vertVerts, posX := railX, posY := 0, posZ := 0, rotZPi := 0 },
    { tag := "lipTop", verts := lipH, posX := 0, posY := railY, posZ := 0, rotZPi := 0 },
    { tag := "lipBottom", verts := lipH, posX := 0, posY := -railY, posZ := 0, rotZPi := 0 },
    { tag := "lipLeft", verts := lipV, posX := -railX, posY := 0, posZ := 0, rotZPi := 0 },
    { tag := "lipRight", verts := lipV, posX := railX, posY := 0, posZ := 0, rotZPi := 0 } ]

/-- The insert mesh vertices: the extruded L profile shifted by the
recentering translation of line 210.  The x and y shifts are finite; the z
shift is the NaN of `-geometry.parameters.depth / 2`, and NaN-propagating
addition poisons every vertex's z coordinate. -/
def insertVerts (m : InsertModel) : List (ℚ × ℚ × JsNum) :=
  (extrudeVerts m.shapePts m.depth).map
    (fun v => (v.1 + m.centerShift.1, v.2.1 + m.centerShift.2.1,
               jsAdd (some v.2.2) m.centerShift.2.2))

/-- A thrown JavaScript error. -/
inductive JsError
  | referenceError (name : String)
deriving DecidableEq, Repr

/-- The local bindings `buildFrame` destructures from `safeParams`
(line 224): `const { width, height, faceWidth, lipWidth, clearance } =
safeParams;`.  These, together with the `const`/`let` locals of the
function body, are the only function-scope bindings; none of the body
locals is named `lipDepth` either. -/
def buildFrameDestructuredLocals : List String :=
  ["width", "height", "faceWidth", "lipWidth", "clearance"]

/-- Every module-scope binding of `src/unnamed/part_000`: the four imports
(lines 1-4), the `const`/`let` declarations (lines 6, 22, 33, 34) and the
hoisted function declarations.  The scope chain does not end here: below
module scope sits the global (window) environment with its id-named DOM
properties — see `buildFrameScopeLookup`. -/
def moduleScopeNames : List String :=
  ["THREE", "OrbitControls", "STLExporter", "JSZip", "ui", "defaults",
   "scene", "camera", "renderer", "controls", "frameGroup", "exporter",
   "readParams", "normalizeParams", "setDefaults", "buildProfileShape",
   "carveWoodgrain", "addMiterEnds", "createPiece", "createLipOverlay",
   "createCornerInsert", "buildFrame", "initThree", "fitCameraToFrame",
   "resize", "animate", "debounce", "downloadZip", "attachListeners"]

/-- The element ids the hosting page must provide: the `ui` map
(lines 6-20) retrieves each with `document.getElementById`, and bootstrap
dereferences them all before `buildFrame` can ever run (`setDefaults()` at
line 406 writes `.value` on each form field at line 79, `initThree()` uses
`ui.canvas`, line 408 then calls `buildFrame`), so whenever `buildFrame`
executes these elements exist.  Per HTML named access on the Window
object, every element with an id is exposed as a like-named property of
the global object. -/
def uiElementIds : List String :=
  ["width", "height", "faceWidth", "profileDepth", "lipWidth", "lipDepth",
   "clearance", "style", "summary", "downloadZip", "updatePreview",
   "resetDefaults", "viewport"]

/-- A JavaScript value, as far as the identifier lookups modelled here
need: a number (possibly NaN), a DOM element found by window named
access, or one of the module's own bindings (functions and objects). -/
inductive JsValue
  | num (q : JsNum)
  | element (id : String)
  | moduleBinding (name : String)
deriving DecidableEq, Repr

/-- Scope-chain lookup for a bare identifier read in `buildFrame`'s body:
the function's destructured locals (line 224, bound to the normalized
numbers), then the module bindings, then the global window object whose
named access exposes the page's id-bearing elements (`uiElementIds`).
`none` means the identifier is unresolvable, in which case the read
throws a `ReferenceError` (strict mode changes nothing for reads of a
resolvable reference). -/
def buildFrameScopeLookup (sp : SParams) (n : String) : Option JsValue :=
  if n = "width" then some (.num (some sp.width))
  else if n = "height" then some (.num (some sp.height))
  else if n = "faceWidth" then some (.num (some sp.faceWidth))
  else if n = "lipWidth" then some (.num (some sp.lipWidth))
  else if n = "clearance" then some (.num (some sp.clearance))
  else if moduleScopeNames.contains n then some (.moduleBinding n)
  else if uiElementIds.contains n then some (.element n)
  else none

/-- `ToNumber` as forced by the `*` operator at line 262: numbers pass
through; a DOM element has no own `valueOf`, stringifies to
"[object HTMLInputElement]" and converts to NaN; the module's function and
object bindings likewise convert to NaN. -/
def toNumber : JsValue → JsNum
  | .num q => q
  | .element _ => none
  | .moduleBinding _ => none

/-- One corner-insert clone as placed by lines 256-268: its (cloned)
vertex buffer, position, and z-rotation as a coefficient of π. -/
structure InsertPlacement where
  verts : List (ℚ × ℚ × JsNum)
  posX : ℚ
  posY : ℚ
  posZ : JsNum
  rotZPi : ℚ
deriving DecidableEq, Repr

/-- The scene content `buildFrame` composes: the eight rail / lip-overlay
nodes and the four corner-insert clones. -/
structure Frame where
  pieces : List PlacedPiece
  inserts : List InsertPlacement
deriving DecidableEq, Repr

/-- `buildFrame` (lines 216-278): normalizes, builds and positions the
four rails and four lip overlays, clones the canonical corner insert four
times and places the clones at (±(offsetX - insertOffset),
±(offsetY - insertOffset)) with `rotation.z` of 0, π/2, -π/2, π.  The z
coordinate of each insert position (lines 262-268) is the expression
`lipDepth * 0.2` (0.2 = 1/5); the bare identifier `lipDepth` is neither a
function local (line 224) nor a module binding, but it resolves on the
window object to the page's `<input id="lipDepth">` element, so the
multiplication yields NaN rather than throwing.  Only an unresolvable
identifier would throw the `ReferenceError` of the error branch, which
this program never reaches. -/
def buildFrame (s c : ℚ → ℚ → ℚ) (p : Params) : Except JsError Frame :=
  let sp := safeOf p
  let pieces := framePieces s c p
  let iw := innerWidth sp.width sp.clearance
  let ih := innerHeight sp.height sp.clearance
  let offsetX := iw / 2
  let offsetY := ih / 2
  let insertOffset := min iw ih * (1/4)
  let ins := createCornerInsertFromParams sp
  match buildFrameScopeLookup sp "lipDepth" with
  | none => .error (.referenceError "lipDepth")
  | some v =>
    let zIns := jsMul (toNumber v) (some (1/5))
    .ok { pieces := pieces,
          inserts :=
            [ { verts := insertVerts ins, posX := offsetX - insertOffset,
                posY := offsetY - insertOffset, posZ := zIns, rotZPi := 0 },
              { verts := insertVerts ins, posX := offsetX - insertOffset,
                posY := -(offsetY - insertOffset), posZ := zIns,
                rotZPi := 1/2 },
              { verts := insertVerts ins, posX := -(offsetX - insertOffset),
                posY := offsetY - insertOffset, posZ := zIns,
                rotZPi := -1/2 },
              { verts := insertVerts ins, posX := -(offsetX - insertOffset),
                posY := -(offsetY - insertOffset), posZ := zIns,
                rotZPi := 1 } ] }

/-! ## Concrete inputs used by the counterexamples and witnesses -/

/-- The defaults, as the raw record `readParams` would produce for them. -/
def defaultRaw : Params := defaultParams

/-- A raw input with `faceWidth = 2` and `lipWidth = 3`: the clamp of
line 68 fires and produces `lipWidth = max(2, 0.9) = 2 = faceWidth`. -/
def pFaceTwo : Params :=
  { width := some 600, height := some 400, faceWidth := some 2,
    profileDepth := some 14, lipWidth := some 3, clearance := some (2/5),
    lipDepth := some 4, style := "minimal" }

/-- A raw input with an unknown style value. -/
def pNeon : Params :=
  { width := some 600, height := some 400, faceWidth := some 20,
    profileDepth := some 14, lipWidth := some 4, lipDepth := some 4,
    clearance := some (2/5), style := "neon" }

/-- A raw input with `clearance = 0` (finite and ≥ 0). -/
def pZeroClearance : Params :=
  { width := some 600, height := some 400, faceWidth := some 20,
    profileDepth := some 14, lipWidth := some 4, lipDepth := some 4,
    clearance := some 0, style := "minimal" }

/-- The defaults with the wood style, exercising the woodgrain pass. -/
def pWood : Params :=
  { width := some 600, height := some 400, faceWidth := some 20,
    profileDepth := some 14, lipWidth := some 4, lipDepth := some 4,
    clearance := some (2/5), style := "wood" }

/-- Normalized default parameters as an `SParams` record. -/
def sDefault : SParams :=
  { width := 600, height := 400, faceWidth := 20, profileDepth := 14,
    lipWidth := 4, lipDepth := 4, clearance := 2/5, style := "minimal" }

/-- Like `sDefault` but with different opening size and lip width — the
fields `createCornerInsert` does not read. -/
def sOtherLengths : SParams :=
  { width := 1000, height := 250, faceWidth := 20, profileDepth := 14,
    lipWidth := 7, lipDepth := 4, clearance := 2/5, style := "bold" }

/-! ## Helper lemmas about the normalizer -/

theorem normNum_pos (x : JsNum) (d : ℚ) (hd : 0 < d) : 0 < normNum x d := by
  rcases x with _ | q
  · simpa [normNum] using hd
  · by_cases h : q ≤ 0
    · simpa [normNum, h] using hd
    · push_neg at h
      simpa [normNum, not_le.mpr h] using h

theorem normNum_of_pos {q : ℚ} (d : ℚ) (hq : 0 < q) : normNum (some q) d = q := by
  simp [normNum, not_le.mpr hq]

theorem normWidth_pos (p : Params) : 0 < normWidth p :=
  normNum_pos _ _ (by norm_num)

theorem normHeight_pos (p : Params) : 0 < normHeight p :=
  normNum_pos _ _ (by norm_num)

theorem normFaceWidth_pos (p : Params) : 0 < normFaceWidth p :=
  normNum_pos _ _ (by norm_num)

theorem normProfileDepth_pos (p : Params) : 0 < normProfileDepth p :=
  normNum_pos _ _ (by norm_num)

theorem normLipWidth0_pos (p : Params) : 0 < normLipWidth0 p :=
  normNum_pos _ _ (by norm_num)

theorem normLipDepth0_pos (p : Params) : 0 < normLipDepth0 p :=
  normNum_pos _ _ (by norm_num)

theorem normClearance_pos (p : Params) : 0 < normClearance p :=
  normNum_pos _ _ (by norm_num)

theorem normLipWidth_pos (p : Params) : 0 < normLipWidth p := by
  unfold normLipWidth
  split_ifs with h
  · exact lt_of_lt_of_le (by norm_num) (le_max_left _ _)
  · exact normLipWidth0_pos p

theorem normLipDepth_pos (p : Params) : 0 < normLipDepth p := by
  unfold normLipDepth
  split_ifs with h
  · exact lt_of_lt_of_le (by norm_num) (le_max_left _ _)
  · exact normLipDepth0_pos p

theorem normWidth_norm (p : Params) :
    normWidth (normalizeParams p) = normWidth p :=
  normNum_of_pos 600 (normWidth_pos p)

theorem normHeight_norm (p : Params) :
    normHeight (normalizeParams p) = normHeight p :=
  normNum_of_pos 400 (normHeight_pos p)

theorem normFaceWidth_norm (p : Params) :
    normFaceWidth (normalizeParams p) = normFaceWidth p :=
  normNum_of_pos 20 (normFaceWidth_pos p)

theorem normProfileDepth_norm (p : Params) :
    normProfileDepth (normalizeParams p) = normProfileDepth p :=
  normNum_of_pos 14 (normProfileDepth_pos p)

theorem normClearance_norm (p : Params) :
    normClearance (normalizeParams p) = normClearance p :=
  normNum_of_pos (2/5) (normClearance_pos p)

theorem normLipWidth0_norm (p : Params) :
    normLipWidth0 (normalizeParams p) = normLipWidth p :=
  normNum_of_pos 4 (normLipWidth_pos p)

theorem normLipDepth0_norm (p : Params) :
    normLipDepth0 (normalizeParams p) = normLipDepth p :=
  normNum_of_pos 4 (normLipDepth_pos p)

theorem normLipWidth_norm (p : Params) :
    normLipWidth (normalizeParams p) = normLipWidth p := by
  have h0 := normLipWidth0_norm p
  have h1 := normFaceWidth_norm p
  simp only [normLipWidth] at h0 ⊢
  rw [h0, h1]
  rcases le_or_lt (normFaceWidth p) (normLipWidth0 p) with h | h
  · simp only [if_pos h, ite_self]
  · simp only [if_neg (not_le.mpr h)]

theorem normLipDepth_norm (p : Params) :
    normLipDepth (normalizeParams p) = normLipDepth p := by
  have h0 := normLipDepth0_norm p
  have h1 := normProfileDepth_norm p
  simp only [normLipDepth] at h0 ⊢
  rw [h0, h1]
  rcases le_or_lt (normProfileDepth p) (normLipDepth0 p) with h | h
  · simp only [if_pos h, ite_self]
  · simp only [if_neg (not_le.mpr h)]

theorem normalizeParams_idem (p : Params) :
    normalizeParams (normalizeParams p) = normalizeParams p := by
  calc normalizeParams (normalizeParams p)
      = { width := some (normWidth (normalizeParams p)),
          height := some (normHeight (normalizeParams p)),
          faceWidth := some (normFaceWidth (normalizeParams p)),
          profileDepth := some (normProfileDepth (normalizeParams p)),
          lipWidth := some (normLipWidth (normalizeParams p)),
          lipDepth := some (normLipDepth (normalizeParams p)),
          clearance := some (normClearance (normalizeParams p)),
          style := p.style } := rfl
    _ = normalizeParams p := by
        rw [normWidth_norm, normHeight_norm, normFaceWidth_norm,
          normProfileDepth_norm, normLipWidth_norm, normLipDepth_norm,
          normClearance_norm]
        rfl

/-! ## Claim C1 -/

/-- C1: for every raw parameter set (and every interpretation of the
trigonometric primitives), `buildFrame` runs to completion without raising
an error and returns the composed frame: the four structural rails and
four lip overlays of `framePieces` plus the four corner-insert clones with
placement rotations 0, π/2, -π/2, π.  The identifier `lipDepth` at
line 262 resolves — via window named access — to the page's
`<input id="lipDepth">` element, whose ToNumber is NaN, so the insert z
positions are NaN (a silent placement defect, not an error state) and the
error branch is never taken. -/
theorem buildFrame_never_errors (s c : ℚ → ℚ → ℚ) (p : Params) :
    ∃ f : Frame, buildFrame s c p = Except.ok f ∧
      f.pieces = framePieces s c p ∧
      f.pieces.map (fun pc => pc.tag) =
        ["top", "bottom", "left", "right", "lipTop", "lipBottom",
         "lipLeft", "lipRight"] ∧
      f.inserts.map (fun i => i.rotZPi) = [0, 1/2, -1/2, 1] ∧
      f.inserts.map (fun i => i.posZ) = [none, none, none, none] :=
  ⟨_, rfl, rfl, rfl, rfl, rfl⟩

/-! ## Claim C2 -/

/-- C2 counterexample: at raw input faceWidth = 2, lipWidth = 3 the clamp
of line 68 produces `lipWidth = max(2, 2*0.45) = 2 = faceWidth`, so the
claimed invariant `0 < lipWidth < faceWidth` fails after normalization. -/
theorem normalize_lip_invariant_fails_at_faceWidth_two :
    ¬ (0 < nLipWidth pFaceTwo ∧ nLipWidth pFaceTwo < nFaceWidth pFaceTwo ∧
       0 < nLipDepth pFaceTwo ∧ nLipDepth pFaceTwo < nProfileDepth pFaceTwo) := by
  have h1 : nLipWidth pFaceTwo = 2 := by
    norm_num [nLipWidth, normalizeParams, normLipWidth, normLipWidth0,
      normFaceWidth, normNum, pFaceTwo, max_def]
  have h2 : nFaceWidth pFaceTwo = 2 := by
    norm_num [nFaceWidth, normalizeParams, normFaceWidth, normNum, pFaceTwo]
  intro hcon
  rw [h1, h2] at hcon
  exact absurd hcon.2.1 (by norm_num)

/-- C2 (amended): for every input, `normalize` yields `0 < lipWidth` and
`0 < lipDepth`; the strict upper bounds `lipWidth < faceWidth` and
`lipDepth < profileDepth` hold whenever the normalized faceWidth
(respectively profileDepth) exceeds 2 — the clamp `max(2, ·)` can reach or
overshoot a faceWidth ≤ 2. -/
theorem normalize_lip_bounds (p : Params) :
    0 < nLipWidth p ∧ 0 < nLipDepth p ∧
    (2 < nFaceWidth p → nLipWidth p < nFaceWidth p) ∧
    (2 < nProfileDepth p → nLipDepth p < nProfileDepth p) := by
  refine ⟨normLipWidth_pos p, normLipDepth_pos p, ?_, ?_⟩
  · intro h2
    show normLipWidth p < normFaceWidth p
    unfold normLipWidth
    split_ifs with hb
    · have hfw := normFaceWidth_pos p
      exact max_lt h2 (by linarith)
    · exact not_le.mp hb
  · intro h2
    show normLipDepth p < normProfileDepth p
    unfold normLipDepth
    split_ifs with hb
    · have hpd := normProfileDepth_pos p
      exact max_lt h2 (by linarith)
    · exact not_le.mp hb

/-- Witness for C2 (amended), at the default parameters. -/
theorem normalize_lip_bounds_witness :
    (0 < nLipWidth defaultRaw ∧ 0 < nLipDepth defaultRaw) ∧
    nLipWidth defaultRaw < nFaceWidth defaultRaw ∧
    nLipDepth defaultRaw < nProfileDepth defaultRaw := by
  have h := normalize_lip_bounds defaultRaw
  exact ⟨⟨h.1, h.2.1⟩, h.2.2.1 (by decide), h.2.2.2 (by decide)⟩

/-! ## Claim C3 -/

/-- C3 counterexample: `normalizeParams` never rewrites the style field —
the unknown style "neon" survives normalization instead of being replaced
by the default style "minimal". -/
theorem normalize_keeps_unknown_style :
    (normalizeParams pNeon).style ≠ "minimal" := by
  decide

/-- C3 (amended): `normalize` passes the style through unchanged for every
input, known or unknown; the fallback happens downstream instead — every
style outside {bold, wood} (so also every unknown value) selects exactly
the minimal treatment in bevel, woodgrain, colour and roughness, because
`createPiece` only ever tests `style === 'bold'` and `style === 'wood'`. -/
theorem style_passthrough_unknown_acts_minimal (p : Params) (st : String)
    (hb : st ≠ "bold") (hw : st ≠ "wood") :
    (normalizeParams p).style = p.style ∧
    bevelOf st = bevelOf "minimal" ∧ woodOf st = woodOf "minimal" ∧
    pieceColor st = pieceColor "minimal" ∧
    pieceRoughness st = pieceRoughness "minimal" := by
  refine ⟨rfl, ?_, ?_, ?_, ?_⟩
  · simp [bevelOf, hb]
  · simp [woodOf, hw]
  · simp [pieceColor, hb, hw]
  · simp [pieceRoughness, hw]

/-- Witness for C3 (amended), at the unknown style "neon". -/
theorem style_passthrough_witness :
    (normalizeParams pNeon).style = "neon" ∧
    pieceColor "neon" = pieceColor "minimal" := by
  have h := style_passthrough_unknown_acts_minimal pNeon "neon"
    (by decide) (by decide)
  exact ⟨h.1, h.2.2.2.1⟩

/-! ## Claim C6 -/

/-- C6 counterexample: the raw clearance 0 is finite and ≥ 0, yet the
defaults loop (line 62 tests `sane[key] <= 0`) replaces it with the default
0.4, so it is not preserved. -/
theorem clearance_zero_replaced : nClearance pZeroClearance ≠ 0 := by
  have h : nClearance pZeroClearance = 2/5 := by
    norm_num [nClearance, normalizeParams, normClearance, normNum,
      pZeroClearance]
  rw [h]
  norm_num

/-- C6 (amended): a finite clearance is preserved exactly when it is
strictly positive; a finite clearance ≤ 0 (in particular 0) and a
non-finite clearance are both replaced by the default 0.4 = 2/5. -/
theorem clearance_normalization (p : Params) :
    (∀ q : ℚ, p.clearance = some q → 0 < q → nClearance p = q) ∧
    (∀ q : ℚ, p.clearance = some q → q ≤ 0 → nClearance p = 2/5) ∧
    (p.clearance = none → nClearance p = 2/5) := by
  refine ⟨?_, ?_, ?_⟩
  · intro q hq hpos
    show normClearance p = q
    unfold normClearance
    rw [hq]
    exact normNum_of_pos _ hpos
  · intro q hq hle
    show normClearance p = 2/5
    unfold normClearance
    rw [hq]
    simp [normNum, hle]
  · intro hq
    show normClearance p = 2/5
    unfold normClearance
    rw [hq]
    rfl

/-- Witness for C6 (amended): clearance 0 is replaced by 2/5 and the
default clearance 2/5 is preserved. -/
theorem clearance_normalization_witness :
    nClearance pZeroClearance = 2/5 ∧ nClearance defaultRaw = 2/5 := by
  exact ⟨(clearance_normalization pZeroClearance).2.1 0 rfl (by norm_num),
         (clearance_normalization defaultRaw).1 (2/5) rfl (by norm_num)⟩

/-! ## Claim C9 -/

/-- C9: for every finite positive input with lipWidth < faceWidth and
lipDepth < profileDepth, `normalize` is idempotent:
`normalize(normalize(p)) = normalize(p)` (the proof goes through the
stronger unconditional idempotence of the implementation). -/
theorem normalize_idempotent_on_valid (p : Params) (w h fw pd lw ld cl : ℚ)
    (hwf : p.width = some w) (hhf : p.height = some h)
    (hfwf : p.faceWidth = some fw) (hpdf : p.profileDepth = some pd)
    (hlwf : p.lipWidth = some lw) (hldf : p.lipDepth = some ld)
    (hclf : p.clearance = some cl)
    (hw0 : 0 < w) (hh0 : 0 < h) (hfw0 : 0 < fw) (hpd0 : 0 < pd)
    (hlw0 : 0 < lw) (hld0 : 0 < ld) (hcl0 : 0 < cl)
    (hlwfw : lw < fw) (hldpd : ld < pd) :
    normalizeParams (normalizeParams p) = normalizeParams p :=
  normalizeParams_idem p

/-- Witness for C9, at the default parameters. -/
theorem normalize_idempotent_witness :
    normalizeParams (normalizeParams defaultRaw) = normalizeParams defaultRaw :=
  normalize_idempotent_on_valid defaultRaw 600 400 20 14 4 4 (2/5)
    rfl rfl rfl rfl rfl rfl rfl
    (by norm_num) (by norm_num) (by norm_num) (by norm_num) (by norm_num)
    (by norm_num) (by norm_num) (by norm_num) (by norm_num)

/-! ## Claim C4 -/

theorem jsign_abs_eq_one (z : ℚ) (h : jsign z ≠ 0) : |jsign z| = 1 := by
  unfold jsign at h ⊢
  split_ifs at h ⊢ with h1 h2
  · norm_num
  · norm_num
  · exact absurd rfl h

theorem miterVertex_in_range (fw pd len x y z : ℚ)
    (h0 : 0 ≤ len/2 - |z|) (h1 : len/2 - |z| < taperSpanOf fw pd) :
    miterVertex fw pd len (x, y, z) =
      (x + skewAt fw pd len z, y + skewAt fw pd len z * (11/20), z) := by
  have hcond : ¬ (taperSpanOf fw pd ≤ len/2 - |z| ∨ len/2 - |z| < 0) := by
    rw [not_or]
    exact ⟨not_le.mpr h1, not_lt.mpr h0⟩
  simp only [miterVertex]
  rw [if_neg hcond]
  rfl

theorem miterVertex_out_of_range (fw pd len x y z : ℚ)
    (h : taperSpanOf fw pd ≤ len/2 - |z|) :
    miterVertex fw pd len (x, y, z) = (x, y, z) := by
  simp only [miterVertex]
  rw [if_pos (Or.inl h)]

/-- C4: the end-taper deformation of `addMiterEnds` is applied for every
style (the style only decides the later woodgrain pass); inside the taper
band `0 ≤ distanceFromEnd < taperSpan` a vertex is displaced by
`(skew, 0.55*skew)` with `skew = (faceWidth + 0.8*profileDepth) *
(1 - distanceFromEnd/taperSpan) * sign(z)`, vertices with
`distanceFromEnd ≥ taperSpan` are untouched, and the displacement magnitude
grows strictly as the distance from the end shrinks. -/
theorem end_taper_spec (fw pd len : ℚ) (hfw : 0 < fw) (hpd : 0 < pd) :
    (∀ x y z : ℚ, 0 ≤ len/2 - |z| → len/2 - |z| < taperSpanOf fw pd →
      miterVertex fw pd len (x, y, z) =
        (x + skewAt fw pd len z, y + skewAt fw pd len z * (11/20), z)) ∧
    (∀ x y z : ℚ, taperSpanOf fw pd ≤ len/2 - |z| →
      miterVertex fw pd len (x, y, z) = (x, y, z)) ∧
    (∀ z w : ℚ, jsign z ≠ 0 → jsign w ≠ 0 → 0 ≤ len/2 - |z| →
      len/2 - |z| < len/2 - |w| → len/2 - |w| < taperSpanOf fw pd →
      |skewAt fw pd len w| < |skewAt fw pd len z|) ∧
    (∀ (s c : ℚ → ℚ → ℚ) (lw ld : ℚ) (st : String),
      pieceDeformedVerts s c fw pd lw ld st len =
        if st = "wood"
        then carveWoodgrain s c len
          (addMiterEnds fw pd len (pieceBaseVerts fw pd lw ld len))
        else addMiterEnds fw pd len (pieceBaseVerts fw pd lw ld len)) := by
  refine ⟨fun x y z h0 h1 => miterVertex_in_range fw pd len x y z h0 h1,
    fun x y z h => miterVertex_out_of_range fw pd len x y z h,
    ?_, fun s c lw ld st => rfl⟩
  intro z w hz hw h0z hzw hwspan
  have hC : 0 < fw + pd * (4/5) := by linarith
  have hspan : 0 < taperSpanOf fw pd :=
    mul_pos (lt_max_of_lt_left hfw) (by norm_num)
  have htw : 0 < 1 - (len/2 - |w|) / taperSpanOf fw pd := by
    have hlt : (len/2 - |w|) / taperSpanOf fw pd < 1 :=
      (div_lt_one hspan).mpr hwspan
    linarith
  have htz : 0 < 1 - (len/2 - |z|) / taperSpanOf fw pd := by
    have hlt : (len/2 - |z|) / taperSpanOf fw pd < 1 :=
      (div_lt_one hspan).mpr (hzw.trans hwspan)
    linarith
  have key : (len/2 - |z|) / taperSpanOf fw pd <
      (len/2 - |w|) / taperSpanOf fw pd := by
    gcongr
  have habsz : |skewAt fw pd len z| =
      (fw + pd * (4/5)) * (1 - (len/2 - |z|) / taperSpanOf fw pd) := by
    unfold skewAt
    rw [abs_mul, abs_mul, jsign_abs_eq_one z hz, mul_one,
      abs_of_pos hC, abs_of_pos htz]
  have habsw : |skewAt fw pd len w| =
      (fw + pd * (4/5)) * (1 - (len/2 - |w|) / taperSpanOf fw pd) := by
    unfold skewAt
    rw [abs_mul, abs_mul, jsign_abs_eq_one w hw, mul_one,
      abs_of_pos hC, abs_of_pos htw]
  rw [habsz, habsw]
  have hsub : 1 - (len/2 - |w|) / taperSpanOf fw pd <
      1 - (len/2 - |z|) / taperSpanOf fw pd := by linarith
  exact mul_lt_mul_of_pos_left hsub hC

/-- Witness for C4, at faceWidth 20, profileDepth 14, length 200:
taperSpan = 22; the vertex at z = 95 (distanceFromEnd 5) is sheared by
skew = 31.2 · (17/22) = 1326/55 in x and 0.55·skew = 663/50 in y, the
vertex at z = 50 (distanceFromEnd 50 ≥ 22) is untouched, and the vertex at
z = 99 (distanceFromEnd 1) is displaced strictly more than the one at 95. -/
theorem end_taper_spec_witness :
    miterVertex 20 14 200 (0, 0, 95) = (1326/55, 663/50, 95) ∧
    miterVertex 20 14 200 (0, 0, 50) = (0, 0, 50) ∧
    |skewAt 20 14 200 95| < |skewAt 20 14 200 99| := by
  have h := end_taper_spec 20 14 200 (by norm_num) (by norm_num)
  refine ⟨?_, ?_, ?_⟩
  · rw [h.1 0 0 95 (by rw [abs_of_pos] <;> norm_num)
      (by rw [abs_of_pos] <;> norm_num [taperSpanOf])]
    norm_num [skewAt, taperSpanOf, jsign, abs_of_pos]
  · exact h.2.1 0 0 50 (by rw [abs_of_pos] <;> norm_num [taperSpanOf])
  · exact h.2.2.1 99 95 (by norm_num [jsign]) (by norm_num [jsign])
      (by rw [abs_of_pos] <;> norm_num)
      (by rw [abs_of_pos, abs_of_pos] <;> norm_num)
      (by rw [abs_of_pos] <;> norm_num [taperSpanOf])

/-! ## Claim C5 -/

/-- C5: `buildProfileShape` is exactly the closed 6-vertex L-ring
(0,0) → (faceWidth,0) → (faceWidth,profileDepth) →
(faceWidth-lipWidth,profileDepth) → (faceWidth-lipWidth,lipDepth) →
(0,lipDepth) → close, and the lip-overlay shape is the closed 5-point ring
obtained by offsetting the lipWidth × lipDepth rectangle by
(-faceWidth/2, -profileDepth/2). -/
theorem profiles_spec (fw pd lw ld : ℚ) :
    buildProfileShape fw pd lw ld =
      [(0, 0), (fw, 0), (fw, pd), (fw - lw, pd), (fw - lw, ld), (0, ld),
       (0, 0)] ∧
    (buildProfileShape fw pd lw ld).head? =
      (buildProfileShape fw pd lw ld).getLast? ∧
    lipOverlayShape fw pd lw ld =
      [(0, 0), (lw, 0), (lw, ld), (0, ld), (0, 0)].map
        (fun q => (q.1 - fw/2, q.2 - pd/2)) ∧
    (lipOverlayShape fw pd lw ld).length = 5 ∧
    (lipOverlayShape fw pd lw ld).head? =
      (lipOverlayShape fw pd lw ld).getLast? := by
  refine ⟨rfl, rfl, ?_, rfl, rfl⟩
  simp only [lipOverlayShape, List.map_cons, List.map_nil, List.cons.injEq,
    Prod.mk.injEq, and_true]
  norm_num
  and_intros <;> ring

/-! ## Claim C7 -/

/-- C7: the derived dimensions of `buildFrame` (and `downloadZip`) satisfy
innerWidth = width + 2·clearance, innerHeight = height + 2·clearance,
horizontalLength = innerWidth + 2·lipWidth, verticalLength = innerHeight +
2·lipWidth, outerWidth = innerWidth + 2·faceWidth, outerHeight =
innerHeight + 2·faceWidth; at the normalized defaults these evaluate to
600.8, 400.8, 608.8, 408.8, 640.8 and 440.8. -/
theorem derived_dimensions (w h cl fw lw : ℚ) :
    innerWidth w cl = w + 2*cl ∧ innerHeight h cl = h + 2*cl ∧
    horizontalLength w cl lw = innerWidth w cl + 2*lw ∧
    verticalLength h cl lw = innerHeight h cl + 2*lw ∧
    outerWidth w cl fw = innerWidth w cl + 2*fw ∧
    outerHeight h cl fw = innerHeight h cl + 2*fw ∧
    innerWidth (nWidth defaultRaw) (nClearance defaultRaw) = 600.8 ∧
    innerHeight (nHeight defaultRaw) (nClearance defaultRaw) = 400.8 ∧
    horizontalLength (nWidth defaultRaw) (nClearance defaultRaw)
      (nLipWidth defaultRaw) = 608.8 ∧
    verticalLength (nHeight defaultRaw) (nClearance defaultRaw)
      (nLipWidth defaultRaw) = 408.8 ∧
    outerWidth (nWidth defaultRaw) (nClearance defaultRaw)
      (nFaceWidth defaultRaw) = 640.8 ∧
    outerHeight (nHeight defaultRaw) (nClearance defaultRaw)
      (nFaceWidth defaultRaw) = 440.8 := by
  refine ⟨by unfold innerWidth; ring, by unfold innerHeight; ring,
    by unfold horizontalLength; ring, by unfold verticalLength; ring,
    by unfold outerWidth; ring, by unfold outerHeight; ring,
    ?_, ?_, ?_, ?_, ?_, ?_⟩ <;>
  norm_num [innerWidth, innerHeight, horizontalLength, verticalLength,
    outerWidth, outerHeight, nWidth, nHeight, nFaceWidth, nLipWidth,
    nClearance, normalizeParams, normWidth, normHeight, normFaceWidth,
    normLipWidth, normLipWidth0, normClearance, normNum, defaultRaw,
    defaultParams]

/-! ## Claim C8 -/

/-- C8 counterexample: the recentering of line 210 does not move the
insert to its local origin — at the default parameters the z component of
the translation is NaN (the source reads `geometry.parameters.depth`,
which is undefined on a three.js ExtrudeGeometry), not the -depth/2 the
claim's "recentered to its local origin" requires. -/
theorem corner_insert_not_recentered_in_z :
    (createCornerInsertFromParams sDefault).centerShift.2.2 = none ∧
    (createCornerInsertFromParams sDefault).centerShift.2.2 ≠
      some (-(createCornerInsertFromParams sDefault).depth / 2) := by
  constructor
  · rfl
  · intro h
    exact Option.noConfusion h

/-- C8 (amended): `createCornerInsert` builds the L-shaped connector with
insertLeg = max(24, 1.4·faceWidth), taper = max(6, 0.4·faceWidth) and
extrusion depth = max(6, 1.1·lipDepth + clearance); the recentering
translate applies -insertLeg/2 in x and y, but its z component is NaN
(line 210 reads `geometry.parameters.depth`, undefined on an
ExtrudeGeometry whose `parameters` is `{shapes, options}`), so the insert
is recentered in x and y only and every vertex's z coordinate becomes
NaN; the geometry still depends only on faceWidth, profileDepth, lipDepth
and clearance (never on a rail length), and the four corner placements are
four clones of the single canonical insert with z-rotations 0, π/2, -π/2,
π. -/
theorem corner_insert_spec (p q : SParams)
    (h1 : p.faceWidth = q.faceWidth) (h2 : p.profileDepth = q.profileDepth)
    (h3 : p.lipDepth = q.lipDepth) (h4 : p.clearance = q.clearance) :
    (createCornerInsertFromParams p).depth =
      max 6 (p.lipDepth * (11/10) + p.clearance) ∧
    (createCornerInsertFromParams p).shapePts =
      [(0, 0), (max 24 (p.faceWidth * (7/5)), 0),
       (max 24 (p.faceWidth * (7/5)), max 3 (p.profileDepth * (7/20))),
       (max 6 (p.faceWidth * (2/5)), max 3 (p.profileDepth * (7/20))),
       (max 6 (p.faceWidth * (2/5)), max 24 (p.faceWidth * (7/5))),
       (0, max 24 (p.faceWidth * (7/5))), (0, 0)] ∧
    (createCornerInsertFromParams p).centerShift =
      (-(max 24 (p.faceWidth * (7/5)))/2, -(max 24 (p.faceWidth * (7/5)))/2,
       none) ∧
    ((insertVerts (createCornerInsertFromParams p)).map fun v => v.2.2) =
      List.replicate 14 none ∧
    createCornerInsertFromParams p = createCornerInsertFromParams q ∧
    (cornerInsertPlacements p).map Prod.fst =
      List.replicate 4 (createCornerInsertFromParams p) ∧
    (cornerInsertPlacements p).map Prod.snd = [0, 1/2, -1/2, 1] := by
  refine ⟨rfl, rfl, rfl, rfl, ?_, rfl, rfl⟩
  unfold createCornerInsertFromParams
  rw [h1, h2, h3, h4]

/-- Witness for C8 (amended): two normalized parameter records that agree
on faceWidth, profileDepth, lipDepth and clearance but differ in width,
height, lipWidth and style produce the same insert; the placements carry
the rotations 0, π/2, -π/2, π; and every insert vertex's z is NaN. -/
theorem corner_insert_spec_witness :
    createCornerInsertFromParams sDefault =
      createCornerInsertFromParams sOtherLengths ∧
    (cornerInsertPlacements sDefault).map Prod.snd = [0, 1/2, -1/2, 1] ∧
    ((insertVerts (createCornerInsertFromParams sDefault)).map
      fun v => v.2.2) = List.replicate 14 none := by
  have h := corner_insert_spec sDefault sOtherLengths rfl rfl rfl rfl
  exact ⟨h.2.2.2.2.1, h.2.2.2.2.2.2, h.2.2.2.1⟩

/-! ## Claim C10 -/

/-- C10: the geometry pipeline is a pure function of the parameters and of
the two trigonometric primitives — building the frame pieces twice from
identical parameters yields identical piece count, per-piece vertex count
and vertex positions, for every interpretation of sin and cos (so in
particular the woodgrain pass introduces no hidden randomness). -/
theorem pipeline_deterministic (s c : ℚ → ℚ → ℚ) (p q : Params)
    (hpq : p = q) :
    (framePieces s c p).length = (framePieces s c q).length ∧
    (framePieces s c p).map (fun pc => pc.verts.length) =
      (framePieces s c q).map (fun pc => pc.verts.length) ∧
    (framePieces s c p).map (fun pc => pc.verts) =
      (framePieces s c q).map (fun pc => pc.verts) ∧
    framePieces s c p = framePieces s c q := by
  subst hpq
  exact ⟨rfl, rfl, rfl, rfl⟩

/-- Witness for C10, at the wood-style defaults and a concrete
interpretation of the trigonometric primitives. -/
theorem pipeline_deterministic_witness :
    framePieces (fun a b => a + b) (fun a b => a * b) pWood =
      framePieces (fun a b => a + b) (fun a b => a * b) pWood :=
  (pipeline_deterministic (fun a b => a + b) (fun a b => a * b)
    pWood pWood rfl).2.2.2

end StlFrames
